import Mathlib

/-!
Shallow embedding of `src/KernelDriver/kernel-simulator.js` (class KernelSimulator).
Byte storage is a `List Nat` (Uint8Array: assignments store the value mod 256 and
assignments past the end of the array are silently dropped, which is exactly the
behaviour of `List.set`).  JavaScript numbers that the code keeps non-negative are
`Nat`; the `activeReaders`/`activeWriters` counters are `Int` because the code can
drive them below zero.  Each device operation is modelled as a pure function from
the pre-state to (result, post-state); the promise/setTimeout wrapper only adds
latency, so the sequential semantics of one call is the body run atomically.
-/

/-- Typed rendering of the error strings thrown/rejected by the simulator:
`No such device`, `Resource busy`, `Buffer full`, `Buffer size exceeds maximum
allowed`, `Invalid IOCTL command`, and the JavaScript RangeError raised by
`new ArrayBuffer(n)` for negative `n`. -/
inductive DriverError where
  | deviceNotLoaded
  | busy
  | bufferFull
  | configError
  | invalidCommand
  | rangeError
deriving DecidableEq, Repr

/-- The mutable fields of `KernelSimulator` that the modelled operations touch. -/
structure DevState where
  moduleLoaded : Bool
  storage : List Nat
  bufferSize : Nat
  bufferUsed : Nat
  bufferPosition : Nat
  bytesRead : Nat
  bytesWritten : Nat
  openCount : Nat
  ioctlCount : Nat
  errorCount : Nat
  startTime : Nat
  activeReaders : Int
  activeWriters : Int
  waitQueue : List Nat
  mutex : Bool
  loggingEnabled : Bool
  maxBufferSize : Nat
deriving DecidableEq, Repr

/-- JS copy loop of `deviceWrite`: `bufferView[this.bufferPosition + i] = dataBytes[i]`.
Uint8Array assignment masks to 8 bits and a write at an index past the end of the
array is a no-op (the loop does NOT wrap the index), which `List.set` reproduces. -/
def writeBytes : List Nat → Nat → List Nat → List Nat
  | st, _, [] => st
  | st, p, b :: rest => writeBytes (st.set p (b % 256)) (p + 1) rest

/-- JS `deviceOpen`: throws `No such device` when the module is unloaded, otherwise
increments `stats.openCount`. -/
def deviceOpen (s : DevState) : Except DriverError Unit × DevState :=
  if s.moduleLoaded = false then (Except.error .deviceNotLoaded, s)
  else (Except.ok (), { s with openCount := s.openCount + 1 })

/-- JS `deviceWrite(data)` run atomically, with `t` the `Date.now()` value pushed on
the wait queue by a failed `acquireMutex`.  Branches, in source order:
reject `No such device` (state untouched); `acquireMutex` throws `Resource busy`
after pushing `t` (then catch does `errorCount++` and finally does
`activeWriters--` — note: without a prior increment — and `releaseMutex` clears the
mutex and shifts the queue); zero free bytes rejects `Buffer full` from inside the
try, so the catch (and its `errorCount++`) is skipped but the finally still runs;
otherwise the copy loop writes `min(len, size - used)` bytes at `bufferPosition`
without wrapping, then `used`, the cursor (mod size) and `stats.bytesWritten` are
advanced.  On the non-busy branches the increment/decrement of `activeWriters`
cancels, so the net state keeps the entry value.  `bufferSize - bufferUsed` uses
truncated subtraction, which agrees with the JS value whenever `used <= size`
(true in every reachable state). -/
def deviceWrite (t : Nat) (data : List Nat) (s : DevState) :
    Except DriverError Nat × DevState :=
  if s.moduleLoaded = false then (Except.error .deviceNotLoaded, s)
  else if s.mutex = true then
    (Except.error .busy,
      { s with waitQueue := (s.waitQueue ++ [t]).tail,
               errorCount := s.errorCount + 1,
               activeWriters := s.activeWriters - 1,
               mutex := false })
  else
    let btw := min data.length (s.bufferSize - s.bufferUsed)
    if btw = 0 then
      (Except.error .bufferFull,
        { s with mutex := false, waitQueue := s.waitQueue.tail })
    else
      (Except.ok btw,
        { s with storage := writeBytes s.storage s.bufferPosition (data.take btw),
                 bufferUsed := s.bufferUsed + btw,
                 bufferPosition := (s.bufferPosition + btw) % s.bufferSize,
                 bytesWritten := s.bytesWritten + btw,
                 mutex := false,
                 waitQueue := s.waitQueue.tail })

/-- JS `deviceRead(count)` run atomically.  Branch structure mirrors `deviceWrite`;
an empty read resolves successfully with no data.  The start offset is
`Math.max(0, bufferPosition - bufferUsed)`, which is exactly `Nat` truncated
subtraction, and each byte is fetched at `(startPos + i) % bufferSize`. -/
def deviceRead (t : Nat) (count : Nat) (s : DevState) :
    Except DriverError (List Nat × Nat) × DevState :=
  if s.moduleLoaded = false then (Except.error .deviceNotLoaded, s)
  else if s.mutex = true then
    (Except.error .busy,
      { s with waitQueue := (s.waitQueue ++ [t]).tail,
               errorCount := s.errorCount + 1,
               activeReaders := s.activeReaders - 1,
               mutex := false })
  else
    let n := min count s.bufferUsed
    if n = 0 then
      (Except.ok ([], 0), { s with mutex := false, waitQueue := s.waitQueue.tail })
    else
      (Except.ok
          ((List.range n).map fun i =>
            s.storage.getD ((s.bufferPosition - s.bufferUsed + i) % s.bufferSize) 0, n),
        { s with bufferUsed := s.bufferUsed - n,
                 bytesRead := s.bytesRead + n,
                 mutex := false,
                 waitQueue := s.waitQueue.tail })

/-- JS `resizeBuffer(newSize)`: `new ArrayBuffer(newSize)` throws a RangeError for a
negative size (modelled as `none`) before any field is mutated; otherwise a fresh
zeroed store receives the first `min(used, newSize)` bytes of the old storage
(copied from index 0, reading past the old end stores 0), and `used` and the
cursor are clamped to the new size. -/
def resizeBuffer (newSize : Int) (s : DevState) : Option DevState :=
  if newSize < 0 then none
  else
    let n := newSize.toNat
    let copySize := min s.bufferUsed n
    some { s with
      storage := (List.range n).map fun i => if i < copySize then s.storage.getD i 0 else 0,
      bufferSize := n,
      bufferUsed := min s.bufferUsed n,
      bufferPosition := min s.bufferPosition n }

/-- JS `deviceIoctl(cmd, arg)` run atomically.  `ioctlCount` is incremented before
dispatch, so it grows even on failing commands.  `SET_BUFFER_SIZE` computes
`arg || 2048` (absent or zero argument falls back to 2048), throws the config
error when the size exceeds `config.maxBufferSize`, and otherwise resizes; a
negative size surfaces as the ArrayBuffer range error.  Unknown commands throw
`Invalid IOCTL command`.  Every thrown error lands in the catch, which increments
`stats.errorCount`. -/
def deviceIoctl (cmd : String) (arg : Option Int) (s : DevState) :
    Except DriverError Unit × DevState :=
  if s.moduleLoaded = false then (Except.error .deviceNotLoaded, s)
  else
    let s0 := { s with ioctlCount := s.ioctlCount + 1 }
    if cmd = "CLEAR_BUFFER" then
      (Except.ok (), { s0 with storage := List.replicate s0.storage.length 0,
                               bufferUsed := 0, bufferPosition := 0 })
    else if cmd = "SET_BUFFER_SIZE" then
      let newSize : Int := match arg with
        | none => 2048
        | some a => if a = 0 then 2048 else a
      if (s0.maxBufferSize : Int) < newSize then
        (Except.error .configError, { s0 with errorCount := s0.errorCount + 1 })
      else
        match resizeBuffer newSize s0 with
        | none => (Except.error .rangeError, { s0 with errorCount := s0.errorCount + 1 })
        | some s1 => (Except.ok (), s1)
    else if cmd = "ENABLE_LOGGING" then
      (Except.ok (), { s0 with loggingEnabled := !s0.loggingEnabled })
    else
      (Except.error .invalidCommand, { s0 with errorCount := s0.errorCount + 1 })

/-- JS `loadModule`: sets the loaded flag and rebuilds `stats` by spreading the old
counters, replacing only `startTime` (`t` stands for `Date.now()`). -/
def loadModule (t : Nat) (s : DevState) : DevState :=
  { s with moduleLoaded := true, startTime := t }

/-- JS `unloadModule`: clears the loaded flag and force-resets the concurrency
bookkeeping (but not the mutex flag, the buffer or the stats). -/
def unloadModule (s : DevState) : DevState :=
  { s with moduleLoaded := false, activeReaders := 0, activeWriters := 0,
           waitQueue := [] }

/-- Constructor state of `KernelSimulator`: a zeroed 1024-byte buffer, all counters
zero, module loaded, mutex free, `maxBufferSize` 8192. -/
def initialState : DevState :=
  { moduleLoaded := true
    storage := List.replicate 1024 0
    bufferSize := 1024
    bufferUsed := 0
    bufferPosition := 0
    bytesRead := 0
    bytesWritten := 0
    openCount := 0
    ioctlCount := 0
    errorCount := 0
    startTime := 0
    activeReaders := 0
    activeWriters := 0
    waitQueue := []
    mutex := false
    loggingEnabled := true
    maxBufferSize := 8192 }

/-- The readable region as the code's own `deviceRead` would deliver it in full:
`used` bytes fetched from offset `max(0, bufferPosition - bufferUsed)` onwards,
indices taken mod `bufferSize`. -/
def readableBytes (s : DevState) : List Nat :=
  (List.range s.bufferUsed).map fun i =>
    s.storage.getD ((s.bufferPosition - s.bufferUsed + i) % s.bufferSize) 0

/-- The bytes a read of `maxCount` would return according to the spec's words:
`n = min(maxCount, used)` bytes starting at
`(writeCursor - used + capacity) mod capacity`.  Stated only for comparison with
the code's `deviceRead`. -/
def specReadBytes (maxCount : Nat) (s : DevState) : List Nat :=
  (List.range (min maxCount s.bufferUsed)).map fun i =>
    s.storage.getD ((s.bufferPosition + s.bufferSize - s.bufferUsed + i) % s.bufferSize) 0

/-- The bytes the code's `deviceRead` returns, as a standalone formula: same count,
but the start offset is `max(0, writeCursor - used)` (truncated subtraction). -/
def codeReadBytes (maxCount : Nat) (s : DevState) : List Nat :=
  (List.range (min maxCount s.bufferUsed)).map fun i =>
    s.storage.getD ((s.bufferPosition - s.bufferUsed + i) % s.bufferSize) 0

/-- How each failure alters `stats.errorCount`: errors thrown inside the try block
(busy, config, invalid command, range) reach the catch and add 1; the two
`reject`-without-throw paths (device not loaded, buffer full) bypass the catch. -/
def errInc : DriverError → Nat
  | .busy => 1
  | .configError => 1
  | .invalidCommand => 1
  | .rangeError => 1
  | .deviceNotLoaded => 0
  | .bufferFull => 0

/-- Error increment read off an operation result. -/
def errDelta {α : Type} : Except DriverError α → Nat
  | .ok _ => 0
  | .error e => errInc e

/-- Byte count returned by a successful write, 0 on failure. -/
def okBytesW : Except DriverError Nat → Nat
  | .ok n => n
  | .error _ => 0

/-- Byte count returned by a successful read, 0 on failure. -/
def okBytesR : Except DriverError (List Nat × Nat) → Nat
  | .ok p => p.2
  | .error _ => 0

/-- Pointwise order on the five stats counters. -/
def statsLE (s r : DevState) : Prop :=
  s.bytesRead ≤ r.bytesRead ∧ s.bytesWritten ≤ r.bytesWritten ∧
  s.openCount ≤ r.openCount ∧ s.ioctlCount ≤ r.ioctlCount ∧
  s.errorCount ≤ r.errorCount

/-- One buffer call of the kind quantified over by the capacity invariant. -/
inductive RWOp where
  | wr (t : Nat) (data : List Nat)
  | rd (t : Nat) (count : Nat)

/-- Post-state of one write/read call. -/
def stepRW (s : DevState) (op : RWOp) : DevState :=
  match op with
  | .wr t d => (deviceWrite t d s).2
  | .rd t c => (deviceRead t c s).2

/-- Run a sequence of write/read calls. -/
def runRW (ops : List RWOp) (s : DevState) : DevState :=
  ops.foldl stepRW s

/-- Wrapping write state: capacity 4, empty, cursor at 3, stale bytes in storage. -/
def cexState1a : DevState :=
  { initialState with storage := [10, 20, 30, 40], bufferSize := 4,
                      bufferPosition := 3 }

/-- Non-wrapping state with one unread stale byte. -/
def cexState1b : DevState :=
  { initialState with storage := [10, 20, 30, 40], bufferSize := 4,
                      bufferUsed := 1, bufferPosition := 1 }

/-- Empty capacity-6 buffer with the cursor at 1. -/
def witState1 : DevState :=
  { initialState with storage := [0, 0, 0, 0, 0, 0], bufferSize := 6,
                      bufferPosition := 1 }

/-- Wrapped readable region: cursor 1, two unread bytes, so the spec formula says
the region starts at offset 3 while the code starts at offset 0. -/
def cexState2 : DevState :=
  { initialState with storage := [10, 20, 30, 40], bufferSize := 4,
                      bufferUsed := 2, bufferPosition := 1 }

/-- Wrapped state used to exercise the read formula. -/
def witState2 : DevState :=
  { initialState with storage := [5, 6, 7, 8], bufferSize := 4,
                      bufferUsed := 3, bufferPosition := 2 }

/-- Completely full capacity-2 buffer. -/
def cexState3 : DevState :=
  { initialState with storage := [1, 2], bufferSize := 2, bufferUsed := 2 }

/-- Mutex already held by some in-flight operation, both counters at 0. -/
def bugState4 : DevState :=
  { initialState with storage := [0, 0, 0, 0], bufferSize := 4, mutex := true }

/-- Mutex held, non-zero counters and a non-empty wait queue. -/
def witState5 : DevState :=
  { initialState with storage := [0, 0], bufferSize := 2, mutex := true,
                      activeWriters := 3, activeReaders := 2, waitQueue := [11] }

/-- Readable region [20, 30] at offsets 1..2, cursor 3. -/
def cexState6 : DevState :=
  { initialState with storage := [10, 20, 30, 40], bufferSize := 4,
                      bufferUsed := 2, bufferPosition := 3 }

/-- Readable region starting at offset 0 (cursor = used = 2). -/
def witState6 : DevState :=
  { initialState with storage := [1, 2, 3, 4], bufferSize := 4,
                      bufferUsed := 2, bufferPosition := 2 }

/-- The state produced by growing `witState6` to capacity 8. -/
def resState6 : DevState :=
  (resizeBuffer 8 witState6).getD initialState

/-- Small loaded buffer with the source's default `maxBufferSize` of 8192. -/
def cexState7 : DevState :=
  { initialState with storage := [1, 2, 3, 4], bufferSize := 4,
                      bufferUsed := 2, bufferPosition := 2 }

/-- Another small loaded buffer for exercising SET_BUFFER_SIZE. -/
def witState7 : DevState :=
  { initialState with storage := [9, 9], bufferSize := 2, bufferUsed := 1,
                      bufferPosition := 1 }

/-- Non-zero stats counters about to survive a re-load. -/
def cexState9 : DevState :=
  { initialState with storage := [0, 0], bufferSize := 2, bytesRead := 3,
                      bytesWritten := 7, openCount := 2, ioctlCount := 4,
                      errorCount := 5 }

/-- Unloaded module whose mutex flag was left set. -/
def cexState10 : DevState :=
  { initialState with moduleLoaded := false, mutex := true,
                      storage := [0, 0, 0, 0], bufferSize := 4 }

/-- Unloaded module, mutex free, room available. -/
def witState10 : DevState :=
  { initialState with moduleLoaded := false, storage := [0, 0, 0, 0],
                      bufferSize := 4 }

theorem writeBytes_length (d : List Nat) : ∀ st p, (writeBytes st p d).length = st.length := by
  induction d with
  | nil => intro st p; rfl
  | cons b rest ih => intro st p; rw [writeBytes, ih, List.length_set]

theorem writeBytes_getD_lt (d : List Nat) : ∀ st p j, j < p →
    (writeBytes st p d).getD j 0 = st.getD j 0 := by
  induction d with
  | nil => intro st p j _; rfl
  | cons b rest ih =>
    intro st p j h
    rw [writeBytes, ih _ _ _ (Nat.lt_succ_of_lt h)]
    simp [List.getD_eq_getElem?_getD, List.getElem?_set_ne (Nat.ne_of_gt h)]

theorem writeBytes_getD_add (d : List Nat) : ∀ st p i, i < d.length →
    p + d.length ≤ st.length →
    (writeBytes st p d).getD (p + i) 0 = d.getD i 0 % 256 := by
  induction d with
  | nil => intro st p i hi _; exact absurd hi (by simp)
  | cons b rest ih =>
    intro st p i hi hlen
    cases i with
    | zero =>
      simp only [Nat.add_zero]
      rw [writeBytes, writeBytes_getD_lt rest _ _ _ (Nat.lt_succ_self p)]
      have hp : p < st.length := by simp at hlen; omega
      simp [List.getD_eq_getElem?_getD, List.getElem?_set_self hp]
    | succ j =>
      have harr : p + (j + 1) = (p + 1) + j := by omega
      rw [writeBytes, harr, ih _ _ _ (by simpa using hi)
        (by simp [List.length_set]; simp at hlen; omega)]
      rfl

theorem getD_range_map (n i : Nat) (f : Nat → Nat) (h : i < n) :
    ((List.range n).map f).getD i 0 = f i := by
  rw [List.getD_eq_getElem?_getD, List.getElem?_map, List.getElem?_range h]
  rfl

theorem range_map_eq (B : List Nat) : ∀ f : Nat → Nat,
    (∀ i, i < B.length → f i = B.getD i 0) →
    (List.range B.length).map f = B := by
  induction B with
  | nil => intro f _; rfl
  | cons b rest ih =>
    intro f h
    rw [List.length_cons, List.range_succ_eq_map, List.map_cons, List.map_map]
    congr 1
    · exact h 0 (Nat.succ_pos _)
    · exact ih (f ∘ Nat.succ) fun i hi => h (i + 1) (by simp only [List.length_cons]; omega)

theorem deviceWrite_ok (t : Nat) (d : List Nat) (s : DevState)
    (hl : s.moduleLoaded = true) (hm : s.mutex = false)
    (hbtw : min d.length (s.bufferSize - s.bufferUsed) ≠ 0) :
    deviceWrite t d s =
      (Except.ok (min d.length (s.bufferSize - s.bufferUsed)),
       { s with
         storage := writeBytes s.storage s.bufferPosition
           (d.take (min d.length (s.bufferSize - s.bufferUsed))),
         bufferUsed := s.bufferUsed + min d.length (s.bufferSize - s.bufferUsed),
         bufferPosition :=
           (s.bufferPosition + min d.length (s.bufferSize - s.bufferUsed)) % s.bufferSize,
         bytesWritten := s.bytesWritten + min d.length (s.bufferSize - s.bufferUsed),
         mutex := false,
         waitQueue := s.waitQueue.tail }) := by
  rw [deviceWrite]
  simp [hl, hm, hbtw]

theorem deviceRead_ok (t count : Nat) (s : DevState)
    (hl : s.moduleLoaded = true) (hm : s.mutex = false)
    (hn : min count s.bufferUsed ≠ 0) :
    deviceRead t count s =
      (Except.ok
        ((List.range (min count s.bufferUsed)).map fun i =>
          s.storage.getD ((s.bufferPosition - s.bufferUsed + i) % s.bufferSize) 0,
         min count s.bufferUsed),
       { s with bufferUsed := s.bufferUsed - min count s.bufferUsed,
                bytesRead := s.bytesRead + min count s.bufferUsed,
                mutex := false,
                waitQueue := s.waitQueue.tail }) := by
  rw [deviceRead]
  simp [hl, hm, hn]

theorem resizeBuffer_some (newSize : Int) (s r : DevState)
    (h : resizeBuffer newSize s = some r) :
    r.bytesRead = s.bytesRead ∧ r.bytesWritten = s.bytesWritten ∧
    r.openCount = s.openCount ∧ r.ioctlCount = s.ioctlCount ∧
    r.errorCount = s.errorCount ∧ r.bufferSize = newSize.toNat ∧
    r.bufferUsed = min s.bufferUsed newSize.toNat ∧
    r.bufferPosition = min s.bufferPosition newSize.toNat ∧
    r.storage = (List.range newSize.toNat).map
      (fun i => if i < min s.bufferUsed newSize.toNat then s.storage.getD i 0 else 0) ∧
    r.moduleLoaded = s.moduleLoaded ∧ r.mutex = s.mutex ∧
    r.startTime = s.startTime := by
  rw [resizeBuffer] at h
  split at h
  · exact absurd h (by simp)
  · injection h with h
    subst h
    simp

/-- C1 counterexample: the round trip fails as stated.  First instance: empty
capacity-4 buffer with cursor 3, writing [1, 2] (len 2 <= capacity - used = 4)
wraps past the end; the byte destined for offset 0 is dropped and the subsequent
read returns the stale bytes [10, 20], not [1, 2].  Second instance: without any
wrap, a buffer holding one unread stale byte returns that byte first, so
write([7]) followed by read(1) yields [10], not [7]. -/
theorem round_trip_cex :
    (deviceWrite 0 [1, 2] cexState1a).1 = Except.ok 2 ∧
    (deviceRead 1 2 (deviceWrite 0 [1, 2] cexState1a).2).1 = Except.ok ([10, 20], 2) ∧
    ([10, 20] : List Nat) ≠ [1, 2] ∧
    (deviceWrite 0 [7] cexState1b).1 = Except.ok 1 ∧
    (deviceRead 1 1 (deviceWrite 0 [7] cexState1b).2).1 = Except.ok ([10], 1) ∧
    ([10] : List Nat) ≠ [7] :=
  ⟨rfl, rfl, by decide, rfl, rfl, by decide⟩

/-- C1 as amended: the round trip writing bytes B and then reading len(B) bytes
returns exactly B, in order, provided the buffer is empty (used = 0), B is
non-empty with bytes below 256, and the write region does not reach the end of
the storage (writeCursor + len(B) < capacity); the code does not wrap the copy
loop, so the wrapping case of the original claim fails. -/
theorem write_read_round_trip (s : DevState) (B : List Nat) (t u : Nat)
    (hl : s.moduleLoaded = true) (hm : s.mutex = false) (hu : s.bufferUsed = 0)
    (hst : s.storage.length = s.bufferSize) (hB : 1 ≤ B.length)
    (hfit : s.bufferPosition + B.length < s.bufferSize)
    (hbytes : ∀ b ∈ B, b < 256) :
    (deviceWrite t B s).1 = Except.ok B.length ∧
    (deviceRead u B.length (deviceWrite t B s).2).1 = Except.ok (B, B.length) := by
  have hmin : min B.length (s.bufferSize - s.bufferUsed) = B.length := by omega
  have hne : min B.length (s.bufferSize - s.bufferUsed) ≠ 0 := by omega
  rw [deviceWrite_ok t B s hl hm hne]
  rw [hmin]
  refine ⟨rfl, ?_⟩
  have htake : B.take B.length = B := List.take_length B
  have hpos : (s.bufferPosition + B.length) % s.bufferSize = s.bufferPosition + B.length :=
    Nat.mod_eq_of_lt hfit
  rw [deviceRead_ok] <;> simp only [hl, hm, hu, htake, hpos, Nat.zero_add, Nat.add_sub_cancel,
    Nat.min_self]
  · congr 1
    rw [Prod.mk.injEq]
    refine ⟨?_, rfl⟩
    apply range_map_eq
    intro i hi
    rw [Nat.mod_eq_of_lt (show s.bufferPosition + i < s.bufferSize by omega),
      writeBytes_getD_add B s.storage s.bufferPosition i hi (by omega)]
    have hmem : B.getD i 0 ∈ B := by
      rw [List.getD_eq_getElem B 0 hi]
      exact List.getElem_mem hi
    exact Nat.mod_eq_of_lt (hbytes _ hmem)
  · omega

/-- C1 witness: concrete non-wrapping round trip on an empty capacity-6 buffer
with cursor 1, writing and reading back [65, 66, 67]. -/
theorem round_trip_witness :
    (deviceWrite 5 [65, 66, 67] witState1).1 = Except.ok 3 ∧
    (deviceRead 6 3 (deviceWrite 5 [65, 66, 67] witState1).2).1 =
      Except.ok ([65, 66, 67], 3) := by
  have h := write_read_round_trip witState1 [65, 66, 67] 5 6 rfl rfl rfl (by decide)
    (by decide) (by decide) (by decide)
  simpa using h

/-- C2 counterexample: with capacity 4, two unread bytes and the cursor at 1, the
spec formula `(writeCursor - used + capacity) mod capacity` locates the readable
region at offset 3 (bytes [40, 10]), but the code starts reading at
`max(0, writeCursor - used) = 0` and returns [10, 20]. -/
theorem read_start_formula_cex :
    (deviceRead 0 2 cexState2).1 = Except.ok ([10, 20], 2) ∧
    specReadBytes 2 cexState2 = [40, 10] ∧
    ([10, 20] : List Nat) ≠ [40, 10] :=
  ⟨rfl, rfl, by decide⟩

/-- C2 as amended: read(maxCount) computes n = min(maxCount, used), returns the n
bytes located starting at offset max(0, writeCursor - used) (truncated
subtraction, indices taken mod capacity) rather than the wrap-corrected offset,
and decrements used by exactly n. -/
theorem read_returns_code_region (t count : Nat) (s : DevState)
    (hl : s.moduleLoaded = true) (hm : s.mutex = false) :
    (deviceRead t count s).1 =
      Except.ok (codeReadBytes count s, min count s.bufferUsed) ∧
    (deviceRead t count s).2.bufferUsed = s.bufferUsed - min count s.bufferUsed := by
  by_cases hn : min count s.bufferUsed = 0
  · rw [deviceRead]
    simp [hl, hm, hn, codeReadBytes]
  · rw [deviceRead_ok t count s hl hm hn]
    simp [codeReadBytes]

/-- C2 witness: wrapped state (capacity 4, used 3, cursor 2); reading two bytes
returns the bytes computed by the code's start-offset formula and drops used
from 3 to 1. -/
theorem read_region_witness :
    (deviceRead 0 2 witState2).1 =
      Except.ok (codeReadBytes 2 witState2, min 2 witState2.bufferUsed) ∧
    (deviceRead 0 2 witState2).2.bufferUsed =
      witState2.bufferUsed - min 2 witState2.bufferUsed :=
  read_returns_code_region 0 2 witState2 rfl rfl

/-- C3 counterexample: a write on a full buffer is rejected with the buffer-full
error from inside the try block, bypassing the catch, so `stats.errorCount` stays
at 0 instead of being incremented; likewise an operation on an unloaded module is
rejected before the try block and leaves `errorCount` untouched. -/
theorem error_count_cex :
    cexState3.errorCount = 0 ∧
    (deviceWrite 0 [9] cexState3).1 = Except.error DriverError.bufferFull ∧
    (deviceWrite 0 [9] cexState3).2.errorCount = 0 ∧
    (deviceWrite 0 [9] (unloadModule cexState3)).1 =
      Except.error DriverError.deviceNotLoaded ∧
    (deviceWrite 0 [9] (unloadModule cexState3)).2.errorCount = 0 :=
  ⟨rfl, rfl, rfl, rfl, rfl⟩

/-- C3 as amended: failures that are thrown inside the try block (Busy,
ConfigError, InvalidCommand, and the resize range error) increment
`stats.errorCount` by exactly 1 before the error is returned, while the
reject-without-throw failures (DeviceNotLoaded, BufferFull) leave it unchanged;
every successful write/read adds exactly the returned byte count to
`stats.bytesWritten`/`stats.bytesRead`, and failures add nothing to them. -/
theorem error_and_byte_accounting (t count : Nat) (data : List Nat) (cmd : String)
    (arg : Option Int) (s : DevState) :
    (deviceWrite t data s).2.errorCount =
      s.errorCount + errDelta (deviceWrite t data s).1 ∧
    (deviceRead t count s).2.errorCount =
      s.errorCount + errDelta (deviceRead t count s).1 ∧
    (deviceIoctl cmd arg s).2.errorCount =
      s.errorCount + errDelta (deviceIoctl cmd arg s).1 ∧
    (deviceOpen s).2.errorCount = s.errorCount + errDelta (deviceOpen s).1 ∧
    (deviceWrite t data s).2.bytesWritten =
      s.bytesWritten + okBytesW (deviceWrite t data s).1 ∧
    (deviceRead t count s).2.bytesRead =
      s.bytesRead + okBytesR (deviceRead t count s).1 := by
  refine ⟨?_, ?_, ?_, ?_, ?_, ?_⟩
  · simp only [deviceWrite]
    split
    · simp [errDelta, errInc]
    · split
      · simp [errDelta, errInc]
      · split <;> simp [errDelta, errInc]
  · simp only [deviceRead]
    split
    · simp [errDelta, errInc]
    · split
      · simp [errDelta, errInc]
      · split <;> simp [errDelta, errInc]
  · simp only [deviceIoctl]
    split
    · simp [errDelta, errInc]
    · split
      · simp [errDelta, errInc]
      · split
        · split
          · simp [errDelta, errInc]
          · split
            · simp [errDelta, errInc]
            · rename_i s1 hres
              have := (resizeBuffer_some _ _ _ hres).2.2.2.2.1
              simp [errDelta, errInc, this]
        · split <;> simp [errDelta, errInc]
  · simp only [deviceOpen]
    split <;> simp [errDelta, errInc]
  · simp only [deviceWrite]
    split
    · simp [errDelta, okBytesW]
    · split
      · simp [okBytesW]
      · split <;> simp [okBytesW]
  · simp only [deviceRead]
    split
    · simp [okBytesR]
    · split
      · simp [okBytesR]
      · split <;> simp [okBytesR]

/-- C4 bug evaluation: invoking write or read while the mutex flag is already held
by a concurrent operation throws in `acquireMutex` before the active counter was
incremented, yet the finally block still decrements it (and frees the mutex).
Starting from counters at 0, one contended write leaves activeWriters at -1 and
one contended read leaves activeReaders at -1, so the counters are not kept
non-negative and the decrement is not paired with any increment. -/
theorem unpaired_decrement_bug :
    bugState4.activeWriters = 0 ∧ bugState4.activeReaders = 0 ∧
    (deviceWrite 0 [1] bugState4).2.activeWriters = -1 ∧
    (deviceRead 0 1 bugState4).2.activeReaders = -1 := by
  decide

/-- C5: a write or read issued while the mutex flag is already true fails with the
busy error and pushes its timestamp on the wait queue (which the release then
shifts), but its cleanup still runs: the corresponding active counter ends one
below its entry value and the mutex flag is forced to false, releasing the
exclusive access held by the in-flight operation. -/
theorem busy_failure_cleanup (t u count : Nat) (data : List Nat) (s : DevState)
    (hl : s.moduleLoaded = true) (hm : s.mutex = true) :
    (deviceWrite t data s).1 = Except.error DriverError.busy ∧
    (deviceWrite t data s).2.activeWriters = s.activeWriters - 1 ∧
    (deviceWrite t data s).2.mutex = false ∧
    (deviceWrite t data s).2.waitQueue = (s.waitQueue ++ [t]).tail ∧
    (deviceWrite t data s).2.errorCount = s.errorCount + 1 ∧
    (deviceRead u count s).1 = Except.error DriverError.busy ∧
    (deviceRead u count s).2.activeReaders = s.activeReaders - 1 ∧
    (deviceRead u count s).2.mutex = false ∧
    (deviceRead u count s).2.waitQueue = (s.waitQueue ++ [u]).tail := by
  rw [deviceWrite, deviceRead]
  simp [hl, hm]

/-- C5 witness: concrete contended state (mutex held, activeWriters 3,
activeReaders 2, one queued timestamp). -/
theorem busy_cleanup_witness :
    (deviceWrite 7 [1] witState5).1 = Except.error DriverError.busy ∧
    (deviceWrite 7 [1] witState5).2.activeWriters = witState5.activeWriters - 1 ∧
    (deviceWrite 7 [1] witState5).2.mutex = false ∧
    (deviceWrite 7 [1] witState5).2.waitQueue = (witState5.waitQueue ++ [7]).tail ∧
    (deviceWrite 7 [1] witState5).2.errorCount = witState5.errorCount + 1 ∧
    (deviceRead 9 1 witState5).1 = Except.error DriverError.busy ∧
    (deviceRead 9 1 witState5).2.activeReaders = witState5.activeReaders - 1 ∧
    (deviceRead 9 1 witState5).2.mutex = false ∧
    (deviceRead 9 1 witState5).2.waitQueue = (witState5.waitQueue ++ [9]).tail :=
  busy_failure_cleanup 7 9 1 [1] witState5 rfl rfl

/-- C6 counterexample: capacity 4, readable region [20, 30] at offsets 1..2 with
cursor 3.  Growing to capacity 8 copies storage offsets 0..1 (not the readable
region), so the readable region afterwards is [20, 0], losing byte 30; and the
cursor is clamped to min(3, 8) = 3 instead of being reset to the copied length
min(used, newCapacity) = 2. -/
theorem resize_cex :
    readableBytes cexState6 = [20, 30] ∧
    (resizeBuffer 8 cexState6).map readableBytes = some [20, 0] ∧
    (resizeBuffer 8 cexState6).map DevState.bufferPosition = some 3 ∧
    ([20, 0] : List Nat) ≠ [20, 30] ∧
    (3 : Nat) ≠ min cexState6.bufferUsed 8 :=
  ⟨rfl, rfl, rfl, by decide, by decide⟩

/-- C6 as amended: a successful resize(newCapacity) copies the first
min(used, newCapacity) bytes counted from offset 0 of the underlying storage
(zero-filling the rest), sets used to min(used, newCapacity) and clamps the
write cursor to min(writeCursor, newCapacity); the readable region is preserved
only in the special case where it already starts at offset 0 (writeCursor =
used) and newCapacity >= used. -/
theorem resize_clamps_and_copies_from_zero (newSize : Int) (s r : DevState)
    (h : resizeBuffer newSize s = some r) :
    r.bufferSize = newSize.toNat ∧
    r.bufferUsed = min s.bufferUsed newSize.toNat ∧
    r.bufferPosition = min s.bufferPosition newSize.toNat ∧
    r.storage = (List.range newSize.toNat).map
      (fun i => if i < min s.bufferUsed newSize.toNat then s.storage.getD i 0 else 0) ∧
    (s.bufferPosition = s.bufferUsed → s.bufferUsed ≤ newSize.toNat →
      s.bufferUsed ≤ s.bufferSize → readableBytes r = readableBytes s) := by
  obtain ⟨-, -, -, -, -, hsz, husd, hpos, hst, -, -, -⟩ := resizeBuffer_some newSize s r h
  refine ⟨hsz, husd, hpos, hst, ?_⟩
  intro hpu hun hus
  have husd2 : r.bufferUsed = s.bufferUsed := by rw [husd]; omega
  have hpos2 : r.bufferPosition = s.bufferUsed := by rw [hpos]; omega
  rw [readableBytes, readableBytes, husd2, hpos2, hpu]
  apply List.map_congr_left
  intro i hi
  rw [List.mem_range] at hi
  have hubound : s.bufferUsed ≤ newSize.toNat := hun
  rw [Nat.sub_self, Nat.zero_add, hsz,
    Nat.mod_eq_of_lt (by omega : i < newSize.toNat),
    Nat.mod_eq_of_lt (by omega : i < s.bufferSize), hst,
    getD_range_map _ _ _ (by omega), if_pos (by omega)]

/-- C6 witness: growing a capacity-4 buffer whose readable region starts at
offset 0 (cursor = used = 2) to capacity 8 clamps the fields as stated and, in
this special case, preserves the readable bytes. -/
theorem resize_witness :
    resState6.bufferUsed = min witState6.bufferUsed (8 : Int).toNat ∧
    resState6.bufferPosition = min witState6.bufferPosition (8 : Int).toNat ∧
    resState6.bufferSize = (8 : Int).toNat ∧
    readableBytes resState6 = readableBytes witState6 := by
  have h := resize_clamps_and_copies_from_zero 8 witState6 resState6 rfl
  exact ⟨h.2.1, h.2.2.1, h.1, h.2.2.2.2 rfl (by decide) (by decide)⟩

/-- C7 counterexample: a requested capacity of 0 does not fail: the code computes
`arg || 2048`, so ioctl(SET_BUFFER_SIZE, 0) with maxBufferSize = 8192 succeeds
and resizes the buffer to 2048, while the claim demands a ConfigError for every
requested capacity <= 0. -/
theorem set_size_zero_cex :
    cexState7.maxBufferSize = 8192 ∧
    (deviceIoctl "SET_BUFFER_SIZE" (some 0) cexState7).1 = Except.ok () ∧
    (deviceIoctl "SET_BUFFER_SIZE" (some 0) cexState7).2.bufferSize = 2048 :=
  ⟨rfl, rfl, rfl⟩

/-- C7 as amended: ioctl(SET_BUFFER_SIZE, arg) fails with ConfigError whenever the
effective size (arg, defaulting to 2048 when arg is 0) exceeds maxBufferSize,
and with the ArrayBuffer range error whenever arg < 0; an argument of exactly 0
is treated as 2048 and the resize then succeeds whenever 2048 fits within
maxBufferSize.  On both failures the buffer (capacity, contents, used,
writeCursor) is unchanged: only ioctlCount and errorCount advance. -/
theorem set_buffer_size_amended (s : DevState) (a : Int)
    (hl : s.moduleLoaded = true) :
    ((s.maxBufferSize : Int) < (if a = 0 then 2048 else a) →
      deviceIoctl "SET_BUFFER_SIZE" (some a) s =
        (Except.error DriverError.configError,
         { s with ioctlCount := s.ioctlCount + 1,
                  errorCount := s.errorCount + 1 })) ∧
    (a < 0 →
      deviceIoctl "SET_BUFFER_SIZE" (some a) s =
        (Except.error DriverError.rangeError,
         { s with ioctlCount := s.ioctlCount + 1,
                  errorCount := s.errorCount + 1 })) ∧
    (a = 0 → (2048 : Int) ≤ (s.maxBufferSize : Int) →
      (deviceIoctl "SET_BUFFER_SIZE" (some a) s).1 = Except.ok () ∧
      (deviceIoctl "SET_BUFFER_SIZE" (some a) s).2.bufferSize = 2048) := by
  refine ⟨?_, ?_, ?_⟩
  · intro hbig
    rw [deviceIoctl]
    rw [if_neg (by simp [hl]), if_neg (by decide), if_pos rfl, if_pos hbig]
  · intro hneg
    have hne : a ≠ 0 := by omega
    have hnotbig : ¬ ((s.maxBufferSize : Int) < if a = 0 then 2048 else a) := by
      rw [if_neg hne]
      omega
    have hrz : resizeBuffer (if a = 0 then 2048 else a)
        { s with ioctlCount := s.ioctlCount + 1 } = none := by
      rw [resizeBuffer, if_pos (by rw [if_neg hne]; omega)]
    rw [deviceIoctl]
    rw [if_neg (by simp [hl]), if_neg (by decide), if_pos rfl, if_neg hnotbig, hrz]
  · intro hzero hfits
    subst hzero
    have hnotbig : ¬ ((s.maxBufferSize : Int) < if (0 : Int) = 0 then 2048 else 0) := by
      rw [if_pos rfl]
      omega
    rw [deviceIoctl]
    rw [if_neg (by simp [hl]), if_neg (by decide), if_pos rfl, if_neg hnotbig]
    rw [if_pos rfl, resizeBuffer, if_neg (by omega)]
    exact ⟨rfl, rfl⟩

/-- C7 witness: with maxBufferSize 8192, requesting 99999 fails with ConfigError,
requesting -7 fails with the range error (buffer untouched in both cases), and
requesting 0 succeeds with the 2048 default. -/
theorem set_size_witness :
    (deviceIoctl "SET_BUFFER_SIZE" (some 99999) witState7).1 =
      Except.error DriverError.configError ∧
    (deviceIoctl "SET_BUFFER_SIZE" (some 99999) witState7).2.bufferSize =
      witState7.bufferSize ∧
    (deviceIoctl "SET_BUFFER_SIZE" (some (-7)) witState7).1 =
      Except.error DriverError.rangeError ∧
    (deviceIoctl "SET_BUFFER_SIZE" (some (-7)) witState7).2.storage =
      witState7.storage ∧
    (deviceIoctl "SET_BUFFER_SIZE" (some 0) witState7).1 = Except.ok () ∧
    (deviceIoctl "SET_BUFFER_SIZE" (some 0) witState7).2.bufferSize = 2048 := by
  have hbig := (set_buffer_size_amended witState7 99999 rfl).1 (by decide)
  have hneg := (set_buffer_size_amended witState7 (-7) rfl).2.1 (by decide)
  have hzero := (set_buffer_size_amended witState7 0 rfl).2.2 rfl (by decide)
  exact ⟨by rw [hbig], by rw [hbig], by rw [hneg], by rw [hneg],
    hzero.1, hzero.2⟩

/-- C8: starting from the constructor state, after any sequence of write and read
calls the buffer satisfies 0 <= used <= capacity. -/
theorem capacity_invariant (ops : List RWOp) :
    0 ≤ (runRW ops initialState).bufferUsed ∧
    (runRW ops initialState).bufferUsed ≤ (runRW ops initialState).bufferSize := by
  refine ⟨Nat.zero_le _, ?_⟩
  have hstep : ∀ (s : DevState) (op : RWOp), s.bufferUsed ≤ s.bufferSize →
      (stepRW s op).bufferUsed ≤ (stepRW s op).bufferSize := by
    intro s op h
    cases op with
    | wr t d =>
      simp only [stepRW, deviceWrite]
      split
      · exact h
      · split
        · exact h
        · split
          · exact h
          · simp
            omega
    | rd t c =>
      simp only [stepRW, deviceRead]
      split
      · exact h
      · split
        · exact h
        · split
          · exact h
          · simp
            omega
  have hrun : ∀ (l : List RWOp) (s : DevState), s.bufferUsed ≤ s.bufferSize →
      (runRW l s).bufferUsed ≤ (runRW l s).bufferSize := by
    intro l
    induction l with
    | nil => intro s h; exact h
    | cons op rest ih =>
      intro s h
      rw [runRW, List.foldl_cons]
      exact ih _ (hstep s op h)
  exact hrun ops initialState (by decide)

/-- C9 counterexample: `loadModule` rebuilds stats by spreading the previous
counters and replacing only startTime, so a re-load does not reset the counters:
from counters (3, 7, 2, 4, 5) a load at time 99 keeps all five values. -/
theorem load_keeps_counters_cex :
    cexState9.errorCount = 5 ∧ cexState9.bytesWritten = 7 ∧
    (loadModule 99 cexState9).errorCount = 5 ∧
    (loadModule 99 cexState9).bytesWritten = 7 ∧
    (loadModule 99 cexState9).startTime = 99 ∧
    (5 : Nat) ≠ 0 ∧ (7 : Nat) ≠ 0 := by
  decide

/-- C9 as amended: the five stats counters are monotonically non-decreasing under
every operation, including load and unload; load() resets only stats.startTime
and never the counters (no operation ever resets them). -/
theorem stats_monotone (t count : Nat) (data : List Nat) (cmd : String)
    (arg : Option Int) (s : DevState) :
    statsLE s (deviceOpen s).2 ∧
    statsLE s (deviceWrite t data s).2 ∧
    statsLE s (deviceRead t count s).2 ∧
    statsLE s (deviceIoctl cmd arg s).2 ∧
    statsLE s (loadModule t s) ∧
    statsLE s (unloadModule s) ∧
    (loadModule t s).bytesRead = s.bytesRead ∧
    (loadModule t s).bytesWritten = s.bytesWritten ∧
    (loadModule t s).openCount = s.openCount ∧
    (loadModule t s).ioctlCount = s.ioctlCount ∧
    (loadModule t s).errorCount = s.errorCount ∧
    (loadModule t s).startTime = t := by
  refine ⟨?_, ?_, ?_, ?_, ?_, ?_, rfl, rfl, rfl, rfl, rfl, rfl⟩
  · simp only [deviceOpen]
    split <;> simp [statsLE]
  · simp only [deviceWrite]
    split
    · simp [statsLE]
    · split
      · simp [statsLE]
      · split <;> simp [statsLE]
  · simp only [deviceRead]
    split
    · simp [statsLE]
    · split
      · simp [statsLE]
      · split <;> simp [statsLE]
  · simp only [deviceIoctl]
    split
    · simp [statsLE]
    · split
      · simp [statsLE]
      · split
        · split
          · simp [statsLE]
          · split
            · simp [statsLE]
            · rename_i s1 hres
              obtain ⟨h1, h2, h3, h4, h5, -⟩ := resizeBuffer_some _ _ _ hres
              simp [statsLE, h1, h2, h3, h4, h5]
        · split <;> simp [statsLE]
  · simp [statsLE, loadModule]
  · simp [statsLE, unloadModule]

/-- C10 counterexample: with the module unloaded but the mutex flag left set
(unload does not clear it), a write correctly fails DeviceNotLoaded, yet after
load() the very same write (non-empty data, plenty of room) does not succeed:
it fails with the busy error. -/
theorem unloaded_then_load_busy_cex :
    cexState10.moduleLoaded = false ∧
    cexState10.bufferSize - cexState10.bufferUsed = 4 ∧
    (deviceWrite 0 [1] cexState10).1 = Except.error DriverError.deviceNotLoaded ∧
    (deviceWrite 0 [1] (loadModule 0 cexState10)).1 = Except.error DriverError.busy :=
  ⟨rfl, rfl, rfl, rfl⟩

/-- C10 as amended: whenever moduleLoaded is false, each of open/write/read/ioctl
fails immediately with DeviceNotLoaded and leaves the state (buffer and stats
included) completely unchanged; after load() sets moduleLoaded, the same write
succeeds provided additionally the mutex flag is not held, the data is
non-empty, and there is at least one free byte of room. -/
theorem unloaded_gate_amended (t u count : Nat) (data : List Nat) (cmd : String)
    (arg : Option Int) (s : DevState) (h : s.moduleLoaded = false) :
    deviceOpen s = (Except.error DriverError.deviceNotLoaded, s) ∧
    deviceWrite t data s = (Except.error DriverError.deviceNotLoaded, s) ∧
    deviceRead t count s = (Except.error DriverError.deviceNotLoaded, s) ∧
    deviceIoctl cmd arg s = (Except.error DriverError.deviceNotLoaded, s) ∧
    (s.mutex = false → 1 ≤ data.length → s.bufferUsed < s.bufferSize →
      (deviceWrite t data (loadModule u s)).1 =
        Except.ok (min data.length (s.bufferSize - s.bufferUsed))) := by
  refine ⟨?_, ?_, ?_, ?_, ?_⟩
  · rw [deviceOpen, if_pos h]
  · rw [deviceWrite, if_pos h]
  · rw [deviceRead, if_pos h]
  · cases arg <;> rw [deviceIoctl, if_pos h]
  · intro hm hd hroom
    have hne : min data.length (s.bufferSize - s.bufferUsed) ≠ 0 := by omega
    rw [deviceWrite_ok t data (loadModule u s) rfl hm hne]
    rfl

/-- C10 witness: unloaded module with the mutex free; every operation fails
DeviceNotLoaded leaving the state intact, and after load() the one-byte write
into the empty capacity-4 buffer succeeds. -/
theorem unloaded_gate_witness :
    deviceOpen witState10 = (Except.error DriverError.deviceNotLoaded, witState10) ∧
    deviceWrite 0 [5] witState10 =
      (Except.error DriverError.deviceNotLoaded, witState10) ∧
    deviceRead 0 1 witState10 =
      (Except.error DriverError.deviceNotLoaded, witState10) ∧
    deviceIoctl "CLEAR_BUFFER" none witState10 =
      (Except.error DriverError.deviceNotLoaded, witState10) ∧
    (deviceWrite 0 [5] (loadModule 9 witState10)).1 = Except.ok 1 := by
  have h := unloaded_gate_amended 0 9 1 [5] "CLEAR_BUFFER" none witState10 rfl
  exact ⟨h.1, h.2.1, h.2.2.1, h.2.2.2.1,
    by simpa using h.2.2.2.2 rfl (by decide) (by decide)⟩
